import Mathlib

/-!
Shallow embedding of `src/ecs/src/cache/mod.rs` (the `NodeCache` layout cache
of the morphorm repository) and proofs of its specified properties.

Modelling choices:
* Rust `f32` values are modelled by Lean `Float`.  The cache performs no
  floating-point arithmetic — values are only stored and read back — so the
  exact float width is irrelevant to every property proved here.
* Rust `HashMap<Entity, V>` is modelled extensionally as `Entity → Option V`
  (`EMap V`): the only operations the source uses are `get`, `get_mut` and
  `insert`, whose observable behaviour is exactly that of a partial map.
* A call of `.unwrap()` on a missing key (a panic in Rust) is modelled by an
  accessor returning `none`; the strict setters therefore return
  `Option NodeCache` (`none` = panic), while the tolerant setters are total.
-/

set_option autoImplicit false

/-- Modelled from the spec: the `Entity` type comes from the surrounding ecs
crate, not under src/; the spec describes entities as opaque, comparable,
hashable identifiers with no inherent ordering requirement.  We model them as
natural numbers. -/
abbrev Entity := Nat

/-- Extensional model of `HashMap<Entity, V>`: a partial map. -/
abbrev EMap (V : Type) := Entity → Option V

namespace EMap

variable {V : Type}

/-- `HashMap::insert`. -/
def insert (m : EMap V) (k : Entity) (v : V) : EMap V :=
  fun q => if q = k then some v else m q

/-- The `if let Some(x) = map.get_mut(&k) { mutate x }` pattern: update the
entry in place when present, do nothing when absent. -/
def adjust (m : EMap V) (k : Entity) (f : V → V) : EMap V :=
  fun q => if q = k then Option.map f (m q) else m q

theorem adjust_absent (m : EMap V) (k : Entity) (f : V → V) (h : m k = none) :
    adjust m k f = m := by
  funext q
  by_cases hq : q = k
  · subst hq; simp [adjust, h]
  · simp [adjust, hq]

end EMap

/-- `Rect` (src/ecs/src/cache/mod.rs:8): final computed output rectangle. -/
structure Rect where
  posx : Float
  posy : Float
  width : Float
  height : Float

/-- `Default` for `Rect`: every `f32` field defaults to `0.0`. -/
def Rect.default : Rect := ⟨0.0, 0.0, 0.0, 0.0⟩

/-- `Space` (src/ecs/src/cache/mod.rs:16): resolved insets. -/
structure Space where
  left : Float
  right : Float
  top : Float
  bottom : Float

/-- `Default` for `Space`. -/
def Space.default : Space := ⟨0.0, 0.0, 0.0, 0.0⟩

/-- `Size` (src/ecs/src/cache/mod.rs:24): requested width/height. -/
structure Size where
  width : Float
  height : Float

/-- `Default` for `Size`. -/
def Size.default : Size := ⟨0.0, 0.0⟩

/-- The four named geometry-change flags.  Modelled from the spec: the flag
constants belong to the `GeometryChanged` bitflags type of the morphorm crate
root, which is not under src/; the spec lists position-X changed, position-Y
changed, width changed and height changed as the tracked properties. -/
inductive GeoFlag where
  | posxChanged
  | posyChanged
  | widthChanged
  | heightChanged
deriving DecidableEq, Repr

/-- Modelled from the spec: `GeometryChanged` comes from the morphorm crate
root, not under src/; the spec describes it as a fixed-size bit-set of
independently settable/clearable flags, one per tracked geometric property,
with default = all flags clear. -/
structure GeometryChanged where
  posx_changed : Bool
  posy_changed : Bool
  width_changed : Bool
  height_changed : Bool
deriving DecidableEq, Repr

/-- `GeometryChanged::default()`: all flags clear. -/
def GeometryChanged.default : GeometryChanged := ⟨false, false, false, false⟩

/-- Modelled from the spec: bitflags `set(flag, value)` — set or clear exactly
the named bit. -/
def GeometryChanged.set (g : GeometryChanged) (flag : GeoFlag) (value : Bool) :
    GeometryChanged :=
  match flag with
  | .posxChanged => { g with posx_changed := value }
  | .posyChanged => { g with posy_changed := value }
  | .widthChanged => { g with width_changed := value }
  | .heightChanged => { g with height_changed := value }

/-- Modelled from the spec: bitflags `contains(flag)` — test the named bit. -/
def GeometryChanged.contains (g : GeometryChanged) (flag : GeoFlag) : Bool :=
  match flag with
  | .posxChanged => g.posx_changed
  | .posyChanged => g.posy_changed
  | .widthChanged => g.width_changed
  | .heightChanged => g.height_changed

/-- `NodeCache` (src/ecs/src/cache/mod.rs:30): one `HashMap` per field. -/
@[ext]
structure NodeCache where
  rect : EMap Rect
  space : EMap Space
  size : EMap Size
  child_width_max : EMap Float
  child_height_max : EMap Float
  child_width_sum : EMap Float
  child_height_sum : EMap Float
  grid_row_max : EMap Float
  grid_col_max : EMap Float
  horizontal_free_space : EMap Float
  horizontal_stretch_sum : EMap Float
  vertical_free_space : EMap Float
  vertical_stretch_sum : EMap Float
  stack_first_child : EMap Bool
  stack_last_child : EMap Bool
  geometry_changed : EMap GeometryChanged
  visible : EMap Bool
  layer : EMap Nat

namespace NodeCache

/-- `NodeCache::default()`: all maps empty. -/
def empty : NodeCache where
  rect := fun _ => none
  space := fun _ => none
  size := fun _ => none
  child_width_max := fun _ => none
  child_height_max := fun _ => none
  child_width_sum := fun _ => none
  child_height_sum := fun _ => none
  grid_row_max := fun _ => none
  grid_col_max := fun _ => none
  horizontal_free_space := fun _ => none
  horizontal_stretch_sum := fun _ => none
  vertical_free_space := fun _ => none
  vertical_stretch_sum := fun _ => none
  stack_first_child := fun _ => none
  stack_last_child := fun _ => none
  geometry_changed := fun _ => none
  visible := fun _ => none
  layer := fun _ => none

/-- `NodeCache::add` (src/ecs/src/cache/mod.rs:63): insert default values for
every field map except `layer`, and `true` for `visible`. -/
def add (c : NodeCache) (entity : Entity) : NodeCache :=
  { c with
    rect := EMap.insert c.rect entity Rect.default
    space := EMap.insert c.space entity Space.default
    child_width_max := EMap.insert c.child_width_max entity 0.0
    child_height_max := EMap.insert c.child_height_max entity 0.0
    child_width_sum := EMap.insert c.child_width_sum entity 0.0
    child_height_sum := EMap.insert c.child_height_sum entity 0.0
    grid_row_max := EMap.insert c.grid_row_max entity 0.0
    grid_col_max := EMap.insert c.grid_col_max entity 0.0
    horizontal_free_space := EMap.insert c.horizontal_free_space entity 0.0
    horizontal_stretch_sum := EMap.insert c.horizontal_stretch_sum entity 0.0
    vertical_free_space := EMap.insert c.vertical_free_space entity 0.0
    vertical_stretch_sum := EMap.insert c.vertical_stretch_sum entity 0.0
    stack_first_child := EMap.insert c.stack_first_child entity false
    stack_last_child := EMap.insert c.stack_last_child entity false
    size := EMap.insert c.size entity Size.default
    geometry_changed := EMap.insert c.geometry_changed entity GeometryChanged.default
    visible := EMap.insert c.visible entity true }

end NodeCache

/-! The `impl Cache for NodeCache` accessors (src/ecs/src/cache/mod.rs:95). -/

namespace Cache

/-- `visible`: tolerant read, defaults to `true`. -/
def visible (c : NodeCache) (node : Entity) : Bool :=
  match c.visible node with
  | some value => value
  | none => true

/-- `geometry_changed`: tolerant read, defaults to the all-clear bit-set. -/
def geometry_changed (c : NodeCache) (node : Entity) : GeometryChanged :=
  match c.geometry_changed node with
  | some g => g
  | none => GeometryChanged.default

/-- `set_geo_changed`: tolerant write, a no-op when the entity is absent. -/
def set_geo_changed (c : NodeCache) (node : Entity) (flag : GeoFlag) (value : Bool) :
    NodeCache :=
  { c with geometry_changed :=
      EMap.adjust c.geometry_changed node (fun g => g.set flag value) }

/-- `width`: tolerant read, defaults to `0.0`. -/
def width (c : NodeCache) (node : Entity) : Float :=
  match c.rect node with
  | some r => r.width
  | none => 0.0

/-- `height`: tolerant read, defaults to `0.0`. -/
def height (c : NodeCache) (node : Entity) : Float :=
  match c.rect node with
  | some r => r.height
  | none => 0.0

/-- `posx`: tolerant read, defaults to `0.0`. -/
def posx (c : NodeCache) (node : Entity) : Float :=
  match c.rect node with
  | some r => r.posx
  | none => 0.0

/-- `posy`: tolerant read, defaults to `0.0`. -/
def posy (c : NodeCache) (node : Entity) : Float :=
  match c.rect node with
  | some r => r.posy
  | none => 0.0

/-- `left`: tolerant read, defaults to `0.0`. -/
def left (c : NodeCache) (node : Entity) : Float :=
  match c.space node with
  | some s => s.left
  | none => 0.0

/-- `right`: tolerant read, defaults to `0.0`. -/
def right (c : NodeCache) (node : Entity) : Float :=
  match c.space node with
  | some s => s.right
  | none => 0.0

/-- `top`: tolerant read, defaults to `0.0`. -/
def top (c : NodeCache) (node : Entity) : Float :=
  match c.space node with
  | some s => s.top
  | none => 0.0

/-- `bottom`: tolerant read, defaults to `0.0`. -/
def bottom (c : NodeCache) (node : Entity) : Float :=
  match c.space node with
  | some s => s.bottom
  | none => 0.0

/-- `new_width`: tolerant read of the requested width, defaults to `0.0`. -/
def new_width (c : NodeCache) (node : Entity) : Float :=
  match c.size node with
  | some s => s.width
  | none => 0.0

/-- `new_height`: tolerant read of the requested height, defaults to `0.0`. -/
def new_height (c : NodeCache) (node : Entity) : Float :=
  match c.size node with
  | some s => s.height
  | none => 0.0

/-- `child_width_max`: strict read; `none` models the `unwrap` panic. -/
def child_width_max (c : NodeCache) (node : Entity) : Option Float :=
  c.child_width_max node

/-- `child_width_sum`: strict read. -/
def child_width_sum (c : NodeCache) (node : Entity) : Option Float :=
  c.child_width_sum node

/-- `child_height_max`: strict read. -/
def child_height_max (c : NodeCache) (node : Entity) : Option Float :=
  c.child_height_max node

/-- `child_height_sum`: strict read. -/
def child_height_sum (c : NodeCache) (node : Entity) : Option Float :=
  c.child_height_sum node

/-- `grid_row_max`: strict read. -/
def grid_row_max (c : NodeCache) (node : Entity) : Option Float :=
  c.grid_row_max node

/-- `grid_col_max`: strict read. -/
def grid_col_max (c : NodeCache) (node : Entity) : Option Float :=
  c.grid_col_max node

/-- `set_visible`: strict write (`get_mut(..).unwrap()`); `none` models the
panic on an unregistered entity. -/
def set_visible (c : NodeCache) (node : Entity) (value : Bool) : Option NodeCache :=
  match c.visible node with
  | some _ => some { c with visible := EMap.insert c.visible node value }
  | none => none

/-- `set_child_width_sum`: strict write. -/
def set_child_width_sum (c : NodeCache) (node : Entity) (value : Float) :
    Option NodeCache :=
  match c.child_width_sum node with
  | some _ => some { c with child_width_sum := EMap.insert c.child_width_sum node value }
  | none => none

/-- `set_child_height_sum`: strict write. -/
def set_child_height_sum (c : NodeCache) (node : Entity) (value : Float) :
    Option NodeCache :=
  match c.child_height_sum node with
  | some _ => some { c with child_height_sum := EMap.insert c.child_height_sum node value }
  | none => none

/-- `set_child_width_max`: strict write. -/
def set_child_width_max (c : NodeCache) (node : Entity) (value : Float) :
    Option NodeCache :=
  match c.child_width_max node with
  | some _ => some { c with child_width_max := EMap.insert c.child_width_max node value }
  | none => none

/-- `set_child_height_max`: strict write. -/
def set_child_height_max (c : NodeCache) (node : Entity) (value : Float) :
    Option NodeCache :=
  match c.child_height_max node with
  | some _ => some { c with child_height_max := EMap.insert c.child_height_max node value }
  | none => none

/-- `horizontal_free_space`: strict read. -/
def horizontal_free_space (c : NodeCache) (node : Entity) : Option Float :=
  c.horizontal_free_space node

/-- `set_horizontal_free_space`: strict write. -/
def set_horizontal_free_space (c : NodeCache) (node : Entity) (value : Float) :
    Option NodeCache :=
  match c.horizontal_free_space node with
  | some _ =>
      some { c with horizontal_free_space := EMap.insert c.horizontal_free_space node value }
  | none => none

/-- `vertical_free_space`: strict read. -/
def vertical_free_space (c : NodeCache) (node : Entity) : Option Float :=
  c.vertical_free_space node

/-- `set_vertical_free_space`: strict write. -/
def set_vertical_free_space (c : NodeCache) (node : Entity) (value : Float) :
    Option NodeCache :=
  match c.vertical_free_space node with
  | some _ =>
      some { c with vertical_free_space := EMap.insert c.vertical_free_space node value }
  | none => none

/-- `horizontal_stretch_sum`: strict read. -/
def horizontal_stretch_sum (c : NodeCache) (node : Entity) : Option Float :=
  c.horizontal_stretch_sum node

/-- `set_horizontal_stretch_sum`: strict write. -/
def set_horizontal_stretch_sum (c : NodeCache) (node : Entity) (value : Float) :
    Option NodeCache :=
  match c.horizontal_stretch_sum node with
  | some _ =>
      some { c with horizontal_stretch_sum := EMap.insert c.horizontal_stretch_sum node value }
  | none => none

/-- `vertical_stretch_sum`: strict read. -/
def vertical_stretch_sum (c : NodeCache) (node : Entity) : Option Float :=
  c.vertical_stretch_sum node

/-- `set_vertical_stretch_sum`: strict write. -/
def set_vertical_stretch_sum (c : NodeCache) (node : Entity) (value : Float) :
    Option NodeCache :=
  match c.vertical_stretch_sum node with
  | some _ =>
      some { c with vertical_stretch_sum := EMap.insert c.vertical_stretch_sum node value }
  | none => none

/-- `set_width`: tolerant write, a no-op when the entity is absent. -/
def set_width (c : NodeCache) (node : Entity) (value : Float) : NodeCache :=
  { c with rect := EMap.adjust c.rect node (fun r => { r with width := value }) }

/-- `set_height`: tolerant write. -/
def set_height (c : NodeCache) (node : Entity) (value : Float) : NodeCache :=
  { c with rect := EMap.adjust c.rect node (fun r => { r with height := value }) }

/-- `set_posx`: tolerant write. -/
def set_posx (c : NodeCache) (node : Entity) (value : Float) : NodeCache :=
  { c with rect := EMap.adjust c.rect node (fun r => { r with posx := value }) }

/-- `set_posy`: tolerant write. -/
def set_posy (c : NodeCache) (node : Entity) (value : Float) : NodeCache :=
  { c with rect := EMap.adjust c.rect node (fun r => { r with posy := value }) }

/-- `set_left`: tolerant write. -/
def set_left (c : NodeCache) (node : Entity) (value : Float) : NodeCache :=
  { c with space := EMap.adjust c.space node (fun s => { s with left := value }) }

/-- `set_right`: tolerant write. -/
def set_right (c : NodeCache) (node : Entity) (value : Float) : NodeCache :=
  { c with space := EMap.adjust c.space node (fun s => { s with right := value }) }

/-- `set_top`: tolerant write. -/
def set_top (c : NodeCache) (node : Entity) (value : Float) : NodeCache :=
  { c with space := EMap.adjust c.space node (fun s => { s with top := value }) }

/-- `set_bottom`: tolerant write. -/
def set_bottom (c : NodeCache) (node : Entity) (value : Float) : NodeCache :=
  { c with space := EMap.adjust c.space node (fun s => { s with bottom := value }) }

/-- `set_new_width`: tolerant write. -/
def set_new_width (c : NodeCache) (node : Entity) (value : Float) : NodeCache :=
  { c with size := EMap.adjust c.size node (fun s => { s with width := value }) }

/-- `set_new_height`: tolerant write. -/
def set_new_height (c : NodeCache) (node : Entity) (value : Float) : NodeCache :=
  { c with size := EMap.adjust c.size node (fun s => { s with height := value }) }

/-- `stack_first_child`: strict read. -/
def stack_first_child (c : NodeCache) (node : Entity) : Option Bool :=
  c.stack_first_child node

/-- `set_stack_first_child`: strict write. -/
def set_stack_first_child (c : NodeCache) (node : Entity) (value : Bool) :
    Option NodeCache :=
  match c.stack_first_child node with
  | some _ => some { c with stack_first_child := EMap.insert c.stack_first_child node value }
  | none => none

/-- `stack_last_child`: strict read. -/
def stack_last_child (c : NodeCache) (node : Entity) : Option Bool :=
  c.stack_last_child node

/-- `set_stack_last_child`: strict write. -/
def set_stack_last_child (c : NodeCache) (node : Entity) (value : Bool) :
    Option NodeCache :=
  match c.stack_last_child node with
  | some _ => some { c with stack_last_child := EMap.insert c.stack_last_child node value }
  | none => none

end Cache

/-! Supporting definitions for the stated properties. -/

namespace NodeCache

/-- An entity is registered when it has an entry in the cache (witnessed by
the `rect` map, which `add` always fills). -/
def Registered (c : NodeCache) (e : Entity) : Bool :=
  (c.rect e).isSome

/-- The per-entity maps that `add` fills all have the same domain.  This is
the invariant of every cache reachable through `add` and the accessors, since
`add` inserts into all of these maps at once and no accessor inserts into any
of them. -/
def WellFormed (c : NodeCache) : Prop :=
  ∀ e, ((c.space e).isSome = (c.rect e).isSome)
    ∧ ((c.size e).isSome = (c.rect e).isSome)
    ∧ ((c.child_width_max e).isSome = (c.rect e).isSome)
    ∧ ((c.child_height_max e).isSome = (c.rect e).isSome)
    ∧ ((c.child_width_sum e).isSome = (c.rect e).isSome)
    ∧ ((c.child_height_sum e).isSome = (c.rect e).isSome)
    ∧ ((c.grid_row_max e).isSome = (c.rect e).isSome)
    ∧ ((c.grid_col_max e).isSome = (c.rect e).isSome)
    ∧ ((c.horizontal_free_space e).isSome = (c.rect e).isSome)
    ∧ ((c.horizontal_stretch_sum e).isSome = (c.rect e).isSome)
    ∧ ((c.vertical_free_space e).isSome = (c.rect e).isSome)
    ∧ ((c.vertical_stretch_sum e).isSome = (c.rect e).isSome)
    ∧ ((c.stack_first_child e).isSome = (c.rect e).isSome)
    ∧ ((c.stack_last_child e).isSome = (c.rect e).isSome)
    ∧ ((c.geometry_changed e).isSome = (c.rect e).isSome)
    ∧ ((c.visible e).isSome = (c.rect e).isSome)

/-- An entity that was never registered: absent from every per-entity map
that `add` fills. -/
def Unregistered (c : NodeCache) (e : Entity) : Prop :=
  c.rect e = none ∧ c.space e = none ∧ c.size e = none
    ∧ c.child_width_max e = none ∧ c.child_height_max e = none
    ∧ c.child_width_sum e = none ∧ c.child_height_sum e = none
    ∧ c.grid_row_max e = none ∧ c.grid_col_max e = none
    ∧ c.horizontal_free_space e = none ∧ c.horizontal_stretch_sum e = none
    ∧ c.vertical_free_space e = none ∧ c.vertical_stretch_sum e = none
    ∧ c.stack_first_child e = none ∧ c.stack_last_child e = none
    ∧ c.geometry_changed e = none ∧ c.visible e = none

end NodeCache

/-- Everything the accessor surface can report about one entity: every read
accessor of the `Cache` impl.  (`layer` has no read accessor; registration
deliberately leaves it alone, see `add_preserves_layer`.) -/
structure Obs where
  posx : Float
  posy : Float
  width : Float
  height : Float
  left : Float
  right : Float
  top : Float
  bottom : Float
  new_width : Float
  new_height : Float
  visible : Bool
  geometry_changed : GeometryChanged
  child_width_max : Option Float
  child_width_sum : Option Float
  child_height_max : Option Float
  child_height_sum : Option Float
  grid_row_max : Option Float
  grid_col_max : Option Float
  horizontal_free_space : Option Float
  horizontal_stretch_sum : Option Float
  vertical_free_space : Option Float
  vertical_stretch_sum : Option Float
  stack_first_child : Option Bool
  stack_last_child : Option Bool

/-- Observe one entity through every read accessor. -/
def NodeCache.observe (c : NodeCache) (e : Entity) : Obs where
  posx := Cache.posx c e
  posy := Cache.posy c e
  width := Cache.width c e
  height := Cache.height c e
  left := Cache.left c e
  right := Cache.right c e
  top := Cache.top c e
  bottom := Cache.bottom c e
  new_width := Cache.new_width c e
  new_height := Cache.new_height c e
  visible := Cache.visible c e
  geometry_changed := Cache.geometry_changed c e
  child_width_max := Cache.child_width_max c e
  child_width_sum := Cache.child_width_sum c e
  child_height_max := Cache.child_height_max c e
  child_height_sum := Cache.child_height_sum c e
  grid_row_max := Cache.grid_row_max c e
  grid_col_max := Cache.grid_col_max c e
  horizontal_free_space := Cache.horizontal_free_space c e
  horizontal_stretch_sum := Cache.horizontal_stretch_sum c e
  vertical_free_space := Cache.vertical_free_space c e
  vertical_stretch_sum := Cache.vertical_stretch_sum c e
  stack_first_child := Cache.stack_first_child c e
  stack_last_child := Cache.stack_last_child c e

/-- One constructor for each write accessor of the `Cache` impl. -/
inductive WriteOp where
  | set_posx (v : Float)
  | set_posy (v : Float)
  | set_width (v : Float)
  | set_height (v : Float)
  | set_left (v : Float)
  | set_right (v : Float)
  | set_top (v : Float)
  | set_bottom (v : Float)
  | set_new_width (v : Float)
  | set_new_height (v : Float)
  | set_geo_changed (flag : GeoFlag) (v : Bool)
  | set_visible (v : Bool)
  | set_child_width_sum (v : Float)
  | set_child_height_sum (v : Float)
  | set_child_width_max (v : Float)
  | set_child_height_max (v : Float)
  | set_horizontal_free_space (v : Float)
  | set_vertical_free_space (v : Float)
  | set_horizontal_stretch_sum (v : Float)
  | set_vertical_stretch_sum (v : Float)
  | set_stack_first_child (v : Bool)
  | set_stack_last_child (v : Bool)

/-- Run a write accessor; `none` models a panic of a strict setter. -/
def WriteOp.apply (op : WriteOp) (c : NodeCache) (e : Entity) : Option NodeCache :=
  match op with
  | .set_posx v => some (Cache.set_posx c e v)
  | .set_posy v => some (Cache.set_posy c e v)
  | .set_width v => some (Cache.set_width c e v)
  | .set_height v => some (Cache.set_height c e v)
  | .set_left v => some (Cache.set_left c e v)
  | .set_right v => some (Cache.set_right c e v)
  | .set_top v => some (Cache.set_top c e v)
  | .set_bottom v => some (Cache.set_bottom c e v)
  | .set_new_width v => some (Cache.set_new_width c e v)
  | .set_new_height v => some (Cache.set_new_height c e v)
  | .set_geo_changed flag v => some (Cache.set_geo_changed c e flag v)
  | .set_visible v => Cache.set_visible c e v
  | .set_child_width_sum v => Cache.set_child_width_sum c e v
  | .set_child_height_sum v => Cache.set_child_height_sum c e v
  | .set_child_width_max v => Cache.set_child_width_max c e v
  | .set_child_height_max v => Cache.set_child_height_max c e v
  | .set_horizontal_free_space v => Cache.set_horizontal_free_space c e v
  | .set_vertical_free_space v => Cache.set_vertical_free_space c e v
  | .set_horizontal_stretch_sum v => Cache.set_horizontal_stretch_sum c e v
  | .set_vertical_stretch_sum v => Cache.set_vertical_stretch_sum c e v
  | .set_stack_first_child v => Cache.set_stack_first_child c e v
  | .set_stack_last_child v => Cache.set_stack_last_child c e v

/-- One constructor for each strict (unwrap-based) accumulator or stack-flag
accessor: the ten accumulator reads, the eight accumulator writes present in
the source, and the stack-flag reads and writes. -/
inductive StrictOp where
  | child_width_max
  | child_width_sum
  | child_height_max
  | child_height_sum
  | grid_row_max
  | grid_col_max
  | horizontal_free_space
  | horizontal_stretch_sum
  | vertical_free_space
  | vertical_stretch_sum
  | stack_first_child
  | stack_last_child
  | set_child_width_sum (v : Float)
  | set_child_height_sum (v : Float)
  | set_child_width_max (v : Float)
  | set_child_height_max (v : Float)
  | set_horizontal_free_space (v : Float)
  | set_vertical_free_space (v : Float)
  | set_horizontal_stretch_sum (v : Float)
  | set_vertical_stretch_sum (v : Float)
  | set_stack_first_child (v : Bool)
  | set_stack_last_child (v : Bool)

/-- Whether the strict accessor completes (`true`) or hits its `unwrap` panic
(`false`). -/
def StrictOp.ok (op : StrictOp) (c : NodeCache) (e : Entity) : Bool :=
  match op with
  | .child_width_max => (Cache.child_width_max c e).isSome
  | .child_width_sum => (Cache.child_width_sum c e).isSome
  | .child_height_max => (Cache.child_height_max c e).isSome
  | .child_height_sum => (Cache.child_height_sum c e).isSome
  | .grid_row_max => (Cache.grid_row_max c e).isSome
  | .grid_col_max => (Cache.grid_col_max c e).isSome
  | .horizontal_free_space => (Cache.horizontal_free_space c e).isSome
  | .horizontal_stretch_sum => (Cache.horizontal_stretch_sum c e).isSome
  | .vertical_free_space => (Cache.vertical_free_space c e).isSome
  | .vertical_stretch_sum => (Cache.vertical_stretch_sum c e).isSome
  | .stack_first_child => (Cache.stack_first_child c e).isSome
  | .stack_last_child => (Cache.stack_last_child c e).isSome
  | .set_child_width_sum v => (Cache.set_child_width_sum c e v).isSome
  | .set_child_height_sum v => (Cache.set_child_height_sum c e v).isSome
  | .set_child_width_max v => (Cache.set_child_width_max c e v).isSome
  | .set_child_height_max v => (Cache.set_child_height_max c e v).isSome
  | .set_horizontal_free_space v => (Cache.set_horizontal_free_space c e v).isSome
  | .set_vertical_free_space v => (Cache.set_vertical_free_space c e v).isSome
  | .set_horizontal_stretch_sum v => (Cache.set_horizontal_stretch_sum c e v).isSome
  | .set_vertical_stretch_sum v => (Cache.set_vertical_stretch_sum c e v).isSome
  | .set_stack_first_child v => (Cache.set_stack_first_child c e v).isSome
  | .set_stack_last_child v => (Cache.set_stack_last_child c e v).isSome

/-! Helper lemmas shared by several witnesses. -/

/-- The cache obtained by registering entity `0` in the empty cache is
well-formed. -/
theorem wellFormed_add_empty : NodeCache.WellFormed (NodeCache.add NodeCache.empty 0) := by
  intro e
  by_cases h : e = 0 <;>
    simp [NodeCache.add, NodeCache.empty, EMap.insert, h]

/-- Entity `0` is absent from every map of the empty cache. -/
theorem unregistered_empty : NodeCache.Unregistered NodeCache.empty 0 := by
  simp [NodeCache.Unregistered, NodeCache.empty]

/-! The claims. -/

/-- C10: `add` does not touch the `layer` map at all — the layer entry of the
registered entity and of every other entity is exactly the same after
`add c e` as before, and no default layer is created. -/
theorem add_preserves_layer (c : NodeCache) (e : Entity) :
    (NodeCache.add c e).layer = c.layer := rfl

/-- C1 counterexample: writing the visible flag for an entity that was never
registered is not a tolerant no-op — on the empty cache, `set_visible`
hits its `unwrap` and panics (modelled by `none`). -/
theorem set_visible_unregistered_cex :
    Cache.set_visible NodeCache.empty 0 true = none := rfl

/-- C1 amended: `set_visible` is a strict accessor, like the accumulator and
stack-flag setters — it aborts (panics) exactly when the entity has no entry
in the `visible` map, and succeeds otherwise; it is never a silent no-op on
an unregistered entity. -/
theorem set_visible_aborts_iff_unregistered (c : NodeCache) (e : Entity) (v : Bool) :
    Cache.set_visible c e v = none ↔ c.visible e = none := by
  rcases h : c.visible e with _ | b <;> simp [Cache.set_visible, h]

/-- C3: for an entity that was never registered, every tolerant read accessor
returns its fixed default: `0.0` for the Rect/Space/Size-backed fields,
`true` for `visible`, and the all-clear bit-set for `geometry_changed`. -/
theorem unregistered_tolerant_reads_default (c : NodeCache) (e : Entity)
    (h : NodeCache.Unregistered c e) :
    Cache.posx c e = 0.0 ∧ Cache.posy c e = 0.0 ∧ Cache.width c e = 0.0
      ∧ Cache.height c e = 0.0 ∧ Cache.left c e = 0.0 ∧ Cache.right c e = 0.0
      ∧ Cache.top c e = 0.0 ∧ Cache.bottom c e = 0.0
      ∧ Cache.new_width c e = 0.0 ∧ Cache.new_height c e = 0.0
      ∧ Cache.visible c e = true
      ∧ Cache.geometry_changed c e = GeometryChanged.default := by
  obtain ⟨h1, h2, h3, _, _, _, _, _, _, _, _, _, _, _, _, hg, hv⟩ := h
  refine ⟨?_, ?_, ?_, ?_, ?_, ?_, ?_, ?_, ?_, ?_, ?_, ?_⟩
  · simp [Cache.posx, h1]
  · simp [Cache.posy, h1]
  · simp [Cache.width, h1]
  · simp [Cache.height, h1]
  · simp [Cache.left, h2]
  · simp [Cache.right, h2]
  · simp [Cache.top, h2]
  · simp [Cache.bottom, h2]
  · simp [Cache.new_width, h3]
  · simp [Cache.new_height, h3]
  · simp [Cache.visible, hv]
  · simp [Cache.geometry_changed, hg]

/-- C3 witness at the empty cache and entity 0. -/
theorem unregistered_tolerant_reads_default_witness :
    NodeCache.Unregistered NodeCache.empty 0 ∧ Cache.posx NodeCache.empty 0 = 0.0 :=
  ⟨unregistered_empty,
   (unregistered_tolerant_reads_default NodeCache.empty 0 unregistered_empty).1⟩

/-- C4: immediately after `add c e`, every field of `e` reads as its default
(`0.0` scalars, `false` stack flags, `true` visible, all-clear change set),
regardless of what was stored for `e` before. -/
theorem add_sets_defaults (c : NodeCache) (e : Entity) :
    Cache.posx (NodeCache.add c e) e = 0.0
      ∧ Cache.posy (NodeCache.add c e) e = 0.0
      ∧ Cache.width (NodeCache.add c e) e = 0.0
      ∧ Cache.height (NodeCache.add c e) e = 0.0
      ∧ Cache.left (NodeCache.add c e) e = 0.0
      ∧ Cache.right (NodeCache.add c e) e = 0.0
      ∧ Cache.top (NodeCache.add c e) e = 0.0
      ∧ Cache.bottom (NodeCache.add c e) e = 0.0
      ∧ Cache.new_width (NodeCache.add c e) e = 0.0
      ∧ Cache.new_height (NodeCache.add c e) e = 0.0
      ∧ Cache.visible (NodeCache.add c e) e = true
      ∧ Cache.geometry_changed (NodeCache.add c e) e = GeometryChanged.default
      ∧ Cache.child_width_max (NodeCache.add c e) e = some 0.0
      ∧ Cache.child_width_sum (NodeCache.add c e) e = some 0.0
      ∧ Cache.child_height_max (NodeCache.add c e) e = some 0.0
      ∧ Cache.child_height_sum (NodeCache.add c e) e = some 0.0
      ∧ Cache.grid_row_max (NodeCache.add c e) e = some 0.0
      ∧ Cache.grid_col_max (NodeCache.add c e) e = some 0.0
      ∧ Cache.horizontal_free_space (NodeCache.add c e) e = some 0.0
      ∧ Cache.horizontal_stretch_sum (NodeCache.add c e) e = some 0.0
      ∧ Cache.vertical_free_space (NodeCache.add c e) e = some 0.0
      ∧ Cache.vertical_stretch_sum (NodeCache.add c e) e = some 0.0
      ∧ Cache.stack_first_child (NodeCache.add c e) e = some false
      ∧ Cache.stack_last_child (NodeCache.add c e) e = some false := by
  simp [NodeCache.add, EMap.insert, Rect.default, Space.default, Size.default,
    Cache.posx, Cache.posy, Cache.width, Cache.height, Cache.left, Cache.right,
    Cache.top, Cache.bottom, Cache.new_width, Cache.new_height, Cache.visible,
    Cache.geometry_changed, Cache.child_width_max, Cache.child_width_sum,
    Cache.child_height_max, Cache.child_height_sum, Cache.grid_row_max,
    Cache.grid_col_max, Cache.horizontal_free_space, Cache.horizontal_stretch_sum,
    Cache.vertical_free_space, Cache.vertical_stretch_sum,
    Cache.stack_first_child, Cache.stack_last_child]

/-- C6: `add` is idempotent and resetting — re-registering an entity, whatever
was stored for it before (including the state left by any earlier writes),
makes every read accessor report exactly what it reports after registering
the entity in a fresh cache. -/
theorem add_reset_equals_fresh (c : NodeCache) (e : Entity) :
    NodeCache.observe (NodeCache.add c e) e
      = NodeCache.observe (NodeCache.add NodeCache.empty e) e := by
  simp [NodeCache.observe, NodeCache.add, NodeCache.empty, EMap.insert,
    Cache.posx, Cache.posy, Cache.width, Cache.height, Cache.left, Cache.right,
    Cache.top, Cache.bottom, Cache.new_width, Cache.new_height, Cache.visible,
    Cache.geometry_changed, Cache.child_width_max, Cache.child_width_sum,
    Cache.child_height_max, Cache.child_height_sum, Cache.grid_row_max,
    Cache.grid_col_max, Cache.horizontal_free_space, Cache.horizontal_stretch_sum,
    Cache.vertical_free_space, Cache.vertical_stretch_sum,
    Cache.stack_first_child, Cache.stack_last_child]

/-- C7: on an entity that was never registered, every tolerant write accessor
(Rect, Space and Size setters and `set_geo_changed`) leaves the entire cache
exactly unchanged. -/
theorem tolerant_writes_noop_unregistered (c : NodeCache) (e : Entity)
    (h : NodeCache.Unregistered c e) (v : Float) (flag : GeoFlag) (b : Bool) :
    Cache.set_posx c e v = c ∧ Cache.set_posy c e v = c
      ∧ Cache.set_width c e v = c ∧ Cache.set_height c e v = c
      ∧ Cache.set_left c e v = c ∧ Cache.set_right c e v = c
      ∧ Cache.set_top c e v = c ∧ Cache.set_bottom c e v = c
      ∧ Cache.set_new_width c e v = c ∧ Cache.set_new_height c e v = c
      ∧ Cache.set_geo_changed c e flag b = c := by
  obtain ⟨h1, h2, h3, _, _, _, _, _, _, _, _, _, _, _, _, hg, _⟩ := h
  refine ⟨?_, ?_, ?_, ?_, ?_, ?_, ?_, ?_, ?_, ?_, ?_⟩
  · simp only [Cache.set_posx]; rw [EMap.adjust_absent _ _ _ h1]
  · simp only [Cache.set_posy]; rw [EMap.adjust_absent _ _ _ h1]
  · simp only [Cache.set_width]; rw [EMap.adjust_absent _ _ _ h1]
  · simp only [Cache.set_height]; rw [EMap.adjust_absent _ _ _ h1]
  · simp only [Cache.set_left]; rw [EMap.adjust_absent _ _ _ h2]
  · simp only [Cache.set_right]; rw [EMap.adjust_absent _ _ _ h2]
  · simp only [Cache.set_top]; rw [EMap.adjust_absent _ _ _ h2]
  · simp only [Cache.set_bottom]; rw [EMap.adjust_absent _ _ _ h2]
  · simp only [Cache.set_new_width]; rw [EMap.adjust_absent _ _ _ h3]
  · simp only [Cache.set_new_height]; rw [EMap.adjust_absent _ _ _ h3]
  · simp only [Cache.set_geo_changed]; rw [EMap.adjust_absent _ _ _ hg]

/-- C7 witness at the empty cache and entity 0. -/
theorem tolerant_writes_noop_unregistered_witness :
    NodeCache.Unregistered NodeCache.empty 0
      ∧ Cache.set_posx NodeCache.empty 0 1.5 = NodeCache.empty :=
  ⟨unregistered_empty,
   (tolerant_writes_noop_unregistered NodeCache.empty 0 unregistered_empty 1.5
      GeoFlag.posxChanged true).1⟩

/-- C8: for a registered entity, `set_geo_changed` writes `value` into exactly
the named bit and leaves every other bit of the entity's change set as it
was. -/
theorem set_geo_changed_at_most_named_bit (c : NodeCache) (e : Entity)
    (flag : GeoFlag) (value : Bool) (h : (c.geometry_changed e).isSome = true) :
    (Cache.geometry_changed (Cache.set_geo_changed c e flag value) e).contains flag = value
      ∧ ∀ g : GeoFlag, g ≠ flag →
          (Cache.geometry_changed (Cache.set_geo_changed c e flag value) e).contains g
            = (Cache.geometry_changed c e).contains g := by
  obtain ⟨g0, hg⟩ := Option.isSome_iff_exists.mp h
  constructor
  · cases flag <;>
      simp [Cache.geometry_changed, Cache.set_geo_changed, EMap.adjust, hg,
        GeometryChanged.set, GeometryChanged.contains]
  · intro g hgne
    cases flag <;> cases g <;>
      simp_all [Cache.geometry_changed, Cache.set_geo_changed, EMap.adjust,
        GeometryChanged.set, GeometryChanged.contains]

/-- C8 witness: on a freshly registered entity, setting the width flag leaves
the position-X flag untouched. -/
theorem set_geo_changed_at_most_named_bit_witness :
    ((NodeCache.add NodeCache.empty 0).geometry_changed 0).isSome = true
      ∧ (Cache.geometry_changed
            (Cache.set_geo_changed (NodeCache.add NodeCache.empty 0) 0
              GeoFlag.widthChanged true) 0).contains GeoFlag.posxChanged
          = (Cache.geometry_changed (NodeCache.add NodeCache.empty 0) 0).contains
              GeoFlag.posxChanged :=
  ⟨rfl,
   (set_geo_changed_at_most_named_bit (NodeCache.add NodeCache.empty 0) 0
      GeoFlag.widthChanged true rfl).2 GeoFlag.posxChanged (by decide)⟩

/-- C2: a strict (unwrap-based) accumulator or stack-flag accessor completes
exactly when the queried entity is registered — on a well-formed cache it
panics if and only if the entity is unregistered, and never panics for a
registered entity. -/
theorem strict_accessor_aborts_iff_unregistered (c : NodeCache) (op : StrictOp)
    (e : Entity) (h : NodeCache.WellFormed c) :
    StrictOp.ok op c e = NodeCache.Registered c e := by
  obtain ⟨hsp, hsz, hcwm, hchm, hcws, hchs, hgrm, hgcm, hhfs, hhss, hvfs, hvss,
    hsfc, hslc, hgc, hvis⟩ := h e
  cases op with
  | child_width_max =>
      simpa [StrictOp.ok, Cache.child_width_max, NodeCache.Registered] using hcwm
  | child_width_sum =>
      simpa [StrictOp.ok, Cache.child_width_sum, NodeCache.Registered] using hcws
  | child_height_max =>
      simpa [StrictOp.ok, Cache.child_height_max, NodeCache.Registered] using hchm
  | child_height_sum =>
      simpa [StrictOp.ok, Cache.child_height_sum, NodeCache.Registered] using hchs
  | grid_row_max =>
      simpa [StrictOp.ok, Cache.grid_row_max, NodeCache.Registered] using hgrm
  | grid_col_max =>
      simpa [StrictOp.ok, Cache.grid_col_max, NodeCache.Registered] using hgcm
  | horizontal_free_space =>
      simpa [StrictOp.ok, Cache.horizontal_free_space, NodeCache.Registered] using hhfs
  | horizontal_stretch_sum =>
      simpa [StrictOp.ok, Cache.horizontal_stretch_sum, NodeCache.Registered] using hhss
  | vertical_free_space =>
      simpa [StrictOp.ok, Cache.vertical_free_space, NodeCache.Registered] using hvfs
  | vertical_stretch_sum =>
      simpa [StrictOp.ok, Cache.vertical_stretch_sum, NodeCache.Registered] using hvss
  | stack_first_child =>
      simpa [StrictOp.ok, Cache.stack_first_child, NodeCache.Registered] using hsfc
  | stack_last_child =>
      simpa [StrictOp.ok, Cache.stack_last_child, NodeCache.Registered] using hslc
  | set_child_width_sum v =>
      rcases hm : c.child_width_sum e with _ | w <;>
        simp_all [StrictOp.ok, Cache.set_child_width_sum, NodeCache.Registered]
  | set_child_height_sum v =>
      rcases hm : c.child_height_sum e with _ | w <;>
        simp_all [StrictOp.ok, Cache.set_child_height_sum, NodeCache.Registered]
  | set_child_width_max v =>
      rcases hm : c.child_width_max e with _ | w <;>
        simp_all [StrictOp.ok, Cache.set_child_width_max, NodeCache.Registered]
  | set_child_height_max v =>
      rcases hm : c.child_height_max e with _ | w <;>
        simp_all [StrictOp.ok, Cache.set_child_height_max, NodeCache.Registered]
  | set_horizontal_free_space v =>
      rcases hm : c.horizontal_free_space e with _ | w <;>
        simp_all [StrictOp.ok, Cache.set_horizontal_free_space, NodeCache.Registered]
  | set_vertical_free_space v =>
      rcases hm : c.vertical_free_space e with _ | w <;>
        simp_all [StrictOp.ok, Cache.set_vertical_free_space, NodeCache.Registered]
  | set_horizontal_stretch_sum v =>
      rcases hm : c.horizontal_stretch_sum e with _ | w <;>
        simp_all [StrictOp.ok, Cache.set_horizontal_stretch_sum, NodeCache.Registered]
  | set_vertical_stretch_sum v =>
      rcases hm : c.vertical_stretch_sum e with _ | w <;>
        simp_all [StrictOp.ok, Cache.set_vertical_stretch_sum, NodeCache.Registered]
  | set_stack_first_child v =>
      rcases hm : c.stack_first_child e with _ | w <;>
        simp_all [StrictOp.ok, Cache.set_stack_first_child, NodeCache.Registered]
  | set_stack_last_child v =>
      rcases hm : c.stack_last_child e with _ | w <;>
        simp_all [StrictOp.ok, Cache.set_stack_last_child, NodeCache.Registered]

/-- C2 witness: in the cache holding only entity 0, the strict
`child_width_max` read of the unregistered entity 1 panics, matching
`Registered = false`. -/
theorem strict_accessor_aborts_iff_unregistered_witness :
    NodeCache.WellFormed (NodeCache.add NodeCache.empty 0)
      ∧ StrictOp.ok StrictOp.child_width_max (NodeCache.add NodeCache.empty 0) 1
          = NodeCache.Registered (NodeCache.add NodeCache.empty 0) 1 :=
  ⟨wellFormed_add_empty,
   strict_accessor_aborts_iff_unregistered (NodeCache.add NodeCache.empty 0)
     StrictOp.child_width_max 1 wellFormed_add_empty⟩

/-- Observation only looks at the per-entity maps at the observed entity. -/
theorem observe_congr (c2 c : NodeCache) (e : Entity)
    (h1 : c2.rect e = c.rect e) (h2 : c2.space e = c.space e)
    (h3 : c2.size e = c.size e)
    (h4 : c2.child_width_max e = c.child_width_max e)
    (h5 : c2.child_height_max e = c.child_height_max e)
    (h6 : c2.child_width_sum e = c.child_width_sum e)
    (h7 : c2.child_height_sum e = c.child_height_sum e)
    (h8 : c2.grid_row_max e = c.grid_row_max e)
    (h9 : c2.grid_col_max e = c.grid_col_max e)
    (h10 : c2.horizontal_free_space e = c.horizontal_free_space e)
    (h11 : c2.horizontal_stretch_sum e = c.horizontal_stretch_sum e)
    (h12 : c2.vertical_free_space e = c.vertical_free_space e)
    (h13 : c2.vertical_stretch_sum e = c.vertical_stretch_sum e)
    (h14 : c2.stack_first_child e = c.stack_first_child e)
    (h15 : c2.stack_last_child e = c.stack_last_child e)
    (h16 : c2.geometry_changed e = c.geometry_changed e)
    (h17 : c2.visible e = c.visible e) :
    NodeCache.observe c2 e = NodeCache.observe c e := by
  simp [NodeCache.observe, Cache.posx, Cache.posy, Cache.width, Cache.height,
    Cache.left, Cache.right, Cache.top, Cache.bottom, Cache.new_width,
    Cache.new_height, Cache.visible, Cache.geometry_changed,
    Cache.child_width_max, Cache.child_width_sum, Cache.child_height_max,
    Cache.child_height_sum, Cache.grid_row_max, Cache.grid_col_max,
    Cache.horizontal_free_space, Cache.horizontal_stretch_sum,
    Cache.vertical_free_space, Cache.vertical_stretch_sum,
    Cache.stack_first_child, Cache.stack_last_child,
    h1, h2, h3, h4, h5, h6, h7, h8, h9, h10, h11, h12, h13, h14, h15, h16, h17]

/-- C9: cross-entity isolation — whenever any write accessor completes on
entity `e1`, every read accessor reports exactly the same values for any
distinct entity `e2` as before the write. -/
theorem write_isolation (op : WriteOp) (c c2 : NodeCache) (e1 e2 : Entity)
    (hne : e1 ≠ e2) (h : WriteOp.apply op c e1 = some c2) :
    NodeCache.observe c2 e2 = NodeCache.observe c e2 := by
  have hns : ¬ (e2 = e1) := fun hh => hne hh.symm
  cases op with
  | set_posx v =>
      simp only [WriteOp.apply, Option.some.injEq] at h
      subst h
      apply observe_congr <;> simp [Cache.set_posx, EMap.adjust, hns]
  | set_posy v =>
      simp only [WriteOp.apply, Option.some.injEq] at h
      subst h
      apply observe_congr <;> simp [Cache.set_posy, EMap.adjust, hns]
  | set_width v =>
      simp only [WriteOp.apply, Option.some.injEq] at h
      subst h
      apply observe_congr <;> simp [Cache.set_width, EMap.adjust, hns]
  | set_height v =>
      simp only [WriteOp.apply, Option.some.injEq] at h
      subst h
      apply observe_congr <;> simp [Cache.set_height, EMap.adjust, hns]
  | set_left v =>
      simp only [WriteOp.apply, Option.some.injEq] at h
      subst h
      apply observe_congr <;> simp [Cache.set_left, EMap.adjust, hns]
  | set_right v =>
      simp only [WriteOp.apply, Option.some.injEq] at h
      subst h
      apply observe_congr <;> simp [Cache.set_right, EMap.adjust, hns]
  | set_top v =>
      simp only [WriteOp.apply, Option.some.injEq] at h
      subst h
      apply observe_congr <;> simp [Cache.set_top, EMap.adjust, hns]
  | set_bottom v =>
      simp only [WriteOp.apply, Option.some.injEq] at h
      subst h
      apply observe_congr <;> simp [Cache.set_bottom, EMap.adjust, hns]
  | set_new_width v =>
      simp only [WriteOp.apply, Option.some.injEq] at h
      subst h
      apply observe_congr <;> simp [Cache.set_new_width, EMap.adjust, hns]
  | set_new_height v =>
      simp only [WriteOp.apply, Option.some.injEq] at h
      subst h
      apply observe_congr <;> simp [Cache.set_new_height, EMap.adjust, hns]
  | set_geo_changed flag v =>
      simp only [WriteOp.apply, Option.some.injEq] at h
      subst h
      apply observe_congr <;> simp [Cache.set_geo_changed, EMap.adjust, hns]
  | set_visible v =>
      simp only [WriteOp.apply, Cache.set_visible] at h
      rcases hm : c.visible e1 with _ | b
      · rw [hm] at h; exact Option.noConfusion h
      · rw [hm] at h
        injection h with h
        subst h
        apply observe_congr <;> simp [EMap.insert, hns]
  | set_child_width_sum v =>
      simp only [WriteOp.apply, Cache.set_child_width_sum] at h
      rcases hm : c.child_width_sum e1 with _ | w
      · rw [hm] at h; exact Option.noConfusion h
      · rw [hm] at h
        injection h with h
        subst h
        apply observe_congr <;> simp [EMap.insert, hns]
  | set_child_height_sum v =>
      simp only [WriteOp.apply, Cache.set_child_height_sum] at h
      rcases hm : c.child_height_sum e1 with _ | w
      · rw [hm] at h; exact Option.noConfusion h
      · rw [hm] at h
        injection h with h
        subst h
        apply observe_congr <;> simp [EMap.insert, hns]
  | set_child_width_max v =>
      simp only [WriteOp.apply, Cache.set_child_width_max] at h
      rcases hm : c.child_width_max e1 with _ | w
      · rw [hm] at h; exact Option.noConfusion h
      · rw [hm] at h
        injection h with h
        subst h
        apply observe_congr <;> simp [EMap.insert, hns]
  | set_child_height_max v =>
      simp only [WriteOp.apply, Cache.set_child_height_max] at h
      rcases hm : c.child_height_max e1 with _ | w
      · rw [hm] at h; exact Option.noConfusion h
      · rw [hm] at h
        injection h with h
        subst h
        apply observe_congr <;> simp [EMap.insert, hns]
  | set_horizontal_free_space v =>
      simp only [WriteOp.apply, Cache.set_horizontal_free_space] at h
      rcases hm : c.horizontal_free_space e1 with _ | w
      · rw [hm] at h; exact Option.noConfusion h
      · rw [hm] at h
        injection h with h
        subst h
        apply observe_congr <;> simp [EMap.insert, hns]
  | set_vertical_free_space v =>
      simp only [WriteOp.apply, Cache.set_vertical_free_space] at h
      rcases hm : c.vertical_free_space e1 with _ | w
      · rw [hm] at h; exact Option.noConfusion h
      · rw [hm] at h
        injection h with h
        subst h
        apply observe_congr <;> simp [EMap.insert, hns]
  | set_horizontal_stretch_sum v =>
      simp only [WriteOp.apply, Cache.set_horizontal_stretch_sum] at h
      rcases hm : c.horizontal_stretch_sum e1 with _ | w
      · rw [hm] at h; exact Option.noConfusion h
      · rw [hm] at h
        injection h with h
        subst h
        apply observe_congr <;> simp [EMap.insert, hns]
  | set_vertical_stretch_sum v =>
      simp only [WriteOp.apply, Cache.set_vertical_stretch_sum] at h
      rcases hm : c.vertical_stretch_sum e1 with _ | w
      · rw [hm] at h; exact Option.noConfusion h
      · rw [hm] at h
        injection h with h
        subst h
        apply observe_congr <;> simp [EMap.insert, hns]
  | set_stack_first_child v =>
      simp only [WriteOp.apply, Cache.set_stack_first_child] at h
      rcases hm : c.stack_first_child e1 with _ | b
      · rw [hm] at h; exact Option.noConfusion h
      · rw [hm] at h
        injection h with h
        subst h
        apply observe_congr <;> simp [EMap.insert, hns]
  | set_stack_last_child v =>
      simp only [WriteOp.apply, Cache.set_stack_last_child] at h
      rcases hm : c.stack_last_child e1 with _ | b
      · rw [hm] at h; exact Option.noConfusion h
      · rw [hm] at h
        injection h with h
        subst h
        apply observe_congr <;> simp [EMap.insert, hns]

/-- C9 witness: setting the width of entity 1 leaves everything observable
about entity 0 unchanged. -/
theorem write_isolation_witness :
    (1 : Entity) ≠ 0
      ∧ WriteOp.apply (WriteOp.set_width 5.0) (NodeCache.add NodeCache.empty 0) 1
          = some (Cache.set_width (NodeCache.add NodeCache.empty 0) 1 5.0)
      ∧ NodeCache.observe (Cache.set_width (NodeCache.add NodeCache.empty 0) 1 5.0) 0
          = NodeCache.observe (NodeCache.add NodeCache.empty 0) 0 :=
  ⟨by decide, rfl,
   write_isolation (WriteOp.set_width 5.0) (NodeCache.add NodeCache.empty 0)
     (Cache.set_width (NodeCache.add NodeCache.empty 0) 1 5.0) 1 0 (by decide) rfl⟩

/-- C5: round-trip — on a well-formed cache, for a registered entity, writing
any writable field and then reading it back returns exactly the written
value, for every float value and both booleans.  (The strict setters are
composed through `Option`: registration guarantees they complete.) -/
theorem write_read_roundtrip (c : NodeCache) (e : Entity)
    (hwf : NodeCache.WellFormed c) (hreg : NodeCache.Registered c e = true)
    (v : Float) (b : Bool) :
    Cache.posx (Cache.set_posx c e v) e = v
      ∧ Cache.posy (Cache.set_posy c e v) e = v
      ∧ Cache.width (Cache.set_width c e v) e = v
      ∧ Cache.height (Cache.set_height c e v) e = v
      ∧ Cache.left (Cache.set_left c e v) e = v
      ∧ Cache.right (Cache.set_right c e v) e = v
      ∧ Cache.top (Cache.set_top c e v) e = v
      ∧ Cache.bottom (Cache.set_bottom c e v) e = v
      ∧ Cache.new_width (Cache.set_new_width c e v) e = v
      ∧ Cache.new_height (Cache.set_new_height c e v) e = v
      ∧ Option.map (fun c2 => Cache.visible c2 e) (Cache.set_visible c e b) = some b
      ∧ Option.bind (Cache.set_child_width_sum c e v)
          (fun c2 => Cache.child_width_sum c2 e) = some v
      ∧ Option.bind (Cache.set_child_height_sum c e v)
          (fun c2 => Cache.child_height_sum c2 e) = some v
      ∧ Option.bind (Cache.set_child_width_max c e v)
          (fun c2 => Cache.child_width_max c2 e) = some v
      ∧ Option.bind (Cache.set_child_height_max c e v)
          (fun c2 => Cache.child_height_max c2 e) = some v
      ∧ Option.bind (Cache.set_horizontal_free_space c e v)
          (fun c2 => Cache.horizontal_free_space c2 e) = some v
      ∧ Option.bind (Cache.set_vertical_free_space c e v)
          (fun c2 => Cache.vertical_free_space c2 e) = some v
      ∧ Option.bind (Cache.set_horizontal_stretch_sum c e v)
          (fun c2 => Cache.horizontal_stretch_sum c2 e) = some v
      ∧ Option.bind (Cache.set_vertical_stretch_sum c e v)
          (fun c2 => Cache.vertical_stretch_sum c2 e) = some v
      ∧ Option.bind (Cache.set_stack_first_child c e b)
          (fun c2 => Cache.stack_first_child c2 e) = some b
      ∧ Option.bind (Cache.set_stack_last_child c e b)
          (fun c2 => Cache.stack_last_child c2 e) = some b := by
  obtain ⟨hsp, hsz, hcwm, hchm, hcws, hchs, hgrm, hgcm, hhfs, hhss, hvfs, hvss,
    hsfc, hslc, hgc, hvis⟩ := hwf e
  have hrt : (c.rect e).isSome = true := hreg
  obtain ⟨r, hr⟩ := Option.isSome_iff_exists.mp hrt
  obtain ⟨s, hs⟩ := Option.isSome_iff_exists.mp (hsp.trans hrt)
  obtain ⟨sz, hsize⟩ := Option.isSome_iff_exists.mp (hsz.trans hrt)
  obtain ⟨w1, hw1⟩ := Option.isSome_iff_exists.mp (hcws.trans hrt)
  obtain ⟨w2, hw2⟩ := Option.isSome_iff_exists.mp (hchs.trans hrt)
  obtain ⟨w3, hw3⟩ := Option.isSome_iff_exists.mp (hcwm.trans hrt)
  obtain ⟨w4, hw4⟩ := Option.isSome_iff_exists.mp (hchm.trans hrt)
  obtain ⟨w5, hw5⟩ := Option.isSome_iff_exists.mp (hhfs.trans hrt)
  obtain ⟨w6, hw6⟩ := Option.isSome_iff_exists.mp (hvfs.trans hrt)
  obtain ⟨w7, hw7⟩ := Option.isSome_iff_exists.mp (hhss.trans hrt)
  obtain ⟨w8, hw8⟩ := Option.isSome_iff_exists.mp (hvss.trans hrt)
  obtain ⟨b1, hb1⟩ := Option.isSome_iff_exists.mp (hsfc.trans hrt)
  obtain ⟨b2, hb2⟩ := Option.isSome_iff_exists.mp (hslc.trans hrt)
  obtain ⟨b3, hb3⟩ := Option.isSome_iff_exists.mp (hvis.trans hrt)
  refine ⟨?_, ?_, ?_, ?_, ?_, ?_, ?_, ?_, ?_, ?_, ?_, ?_, ?_, ?_, ?_, ?_, ?_,
    ?_, ?_, ?_, ?_⟩
  · simp [Cache.set_posx, Cache.posx, EMap.adjust, hr]
  · simp [Cache.set_posy, Cache.posy, EMap.adjust, hr]
  · simp [Cache.set_width, Cache.width, EMap.adjust, hr]
  · simp [Cache.set_height, Cache.height, EMap.adjust, hr]
  · simp [Cache.set_left, Cache.left, EMap.adjust, hs]
  · simp [Cache.set_right, Cache.right, EMap.adjust, hs]
  · simp [Cache.set_top, Cache.top, EMap.adjust, hs]
  · simp [Cache.set_bottom, Cache.bottom, EMap.adjust, hs]
  · simp [Cache.set_new_width, Cache.new_width, EMap.adjust, hsize]
  · simp [Cache.set_new_height, Cache.new_height, EMap.adjust, hsize]
  · simp [Cache.set_visible, Cache.visible, EMap.insert, hb3]
  · simp [Cache.set_child_width_sum, Cache.child_width_sum, EMap.insert, hw1]
  · simp [Cache.set_child_height_sum, Cache.child_height_sum, EMap.insert, hw2]
  · simp [Cache.set_child_width_max, Cache.child_width_max, EMap.insert, hw3]
  · simp [Cache.set_child_height_max, Cache.child_height_max, EMap.insert, hw4]
  · simp [Cache.set_horizontal_free_space, Cache.horizontal_free_space,
      EMap.insert, hw5]
  · simp [Cache.set_vertical_free_space, Cache.vertical_free_space,
      EMap.insert, hw6]
  · simp [Cache.set_horizontal_stretch_sum, Cache.horizontal_stretch_sum,
      EMap.insert, hw7]
  · simp [Cache.set_vertical_stretch_sum, Cache.vertical_stretch_sum,
      EMap.insert, hw8]
  · simp [Cache.set_stack_first_child, Cache.stack_first_child, EMap.insert, hb1]
  · simp [Cache.set_stack_last_child, Cache.stack_last_child, EMap.insert, hb2]

/-- C5 witness on a freshly registered entity, with a negative value. -/
theorem write_read_roundtrip_witness :
    NodeCache.WellFormed (NodeCache.add NodeCache.empty 0)
      ∧ NodeCache.Registered (NodeCache.add NodeCache.empty 0) 0 = true
      ∧ Cache.posx (Cache.set_posx (NodeCache.add NodeCache.empty 0) 0 (-2.5)) 0
          = -2.5 :=
  ⟨wellFormed_add_empty, rfl,
   (write_read_roundtrip (NodeCache.add NodeCache.empty 0) 0 wellFormed_add_empty
      rfl (-2.5) true).1⟩
